import Mathlib

/-!
Verification of `src/c++/apps/echo/dmtr_http_server_threaded.cc` (demikernel
threaded HTTP server) against its natural-language specification.

Shallow embedding conventions:
* Buffers are identified by abstract allocation ids (`Nat`); `0` stands for
  `NULL` / an uninitialised pointer field.
* `dmtr_sgarray_t` keeps the fields the program reads or writes: the backing
  allocation `sga_buf`, `sga_numsegs`, and the two segments the code uses
  (`sga_segs[0]` as buffer+length, `sga_segs[1].sgaseg_len` which the code
  overloads as an envelope).  `sgaseg_len` is a `uint32_t` in dmtr/types.h, so
  writes of a queue descriptor into it are taken modulo 2^32.
* Straight-line handler bodies are embedded as ordered lists of the externally
  visible primitive actions they perform (frees, push/pop submissions, waits),
  one list per control-flow path; the parser outcome and the response builder
  result are parameters, since parser and builders are external collaborators.
* The connection worker's main loop is embedded as a labelled transition
  system over its token set (outstanding operations), `http_q_pending` and
  `num_rcvd`; one `wait_any` iteration is one step.  Transport errors are
  modelled on pop operations (client descriptors), following the error model
  of the specification (section 7, error kind 1).
-/

namespace DmtrHttpServer

/-- Parser outcome, from `enum parser_status` of `request_parser.h` as used by
the switch statements in `http_work` and `tcp_work`. -/
inductive parser_status where
  | REQ_COMPLETE
  | REQ_ERROR
  | REQ_INCOMPLETE
deriving DecidableEq, Repr

/-- The scatter/gather array as the server uses it: backing allocation,
segment count, segment 0 (buffer id and length), and segment 1's length field
(the envelope carrier).  Uninitialised pointer fields are modelled as 0. -/
structure dmtr_sgarray_t where
  sga_buf : Nat
  sga_numsegs : Nat
  seg0_buf : Nat
  seg0_len : Nat
  seg1_len : Nat
deriving DecidableEq, Repr

/-- Externally visible primitive actions performed by a handler body, in
program order: `free()` of an allocation, `dmtr_push` submission to a queue
descriptor, `dmtr_wait` on the token of the just-submitted operation, and
`dmtr_pop` submission on a queue descriptor (whose token is appended to the
worker's token set). -/
inductive Action where
  | freeBuf (buf : Nat)
  | pushSubmit (qd : Nat) (sga : dmtr_sgarray_t)
  | waitLast
  | popSubmit (qd : Nat)
deriving DecidableEq, Repr

def isFreeOf (b : Nat) : Action → Bool
  | .freeBuf b' => b' == b
  | _ => false

def isPushOn (q : Nat) : Action → Bool
  | .pushSubmit q' _ => q' == q
  | _ => false

def isPopOn (q : Nat) : Action → Bool
  | .popSubmit q' => q' == q
  | _ => false

def isWaitLast : Action → Bool
  | .waitLast => true
  | _ => false

/-- The fixed bad-request response sga built on the `REQ_ERROR` path of
`tcp_work` (joined mode, lines 380-385): `sga_numsegs = 1`, segment 0 is a
fresh allocation holding `BAD_REQUEST_HEADER`.  `badBuf` is the id of that
fresh `malloc`, `badLen` the length `snprintf` reports. -/
def tcp_bad_request_sga (badBuf badLen : Nat) : dmtr_sgarray_t :=
  { sga_buf := 0, sga_numsegs := 1, seg0_buf := badBuf, seg0_len := badLen,
    seg1_len := 0 }

/-- The response sga built on the `REQ_COMPLETE` path of `tcp_work` in joined
mode (lines 420-423): `sga_numsegs = 1`, segment 0 owns the builder's
response allocation. -/
def tcp_complete_resp_sga (respBuf respLen : Nat) : dmtr_sgarray_t :=
  { sga_buf := 0, sga_numsegs := 1, seg0_buf := respBuf, seg0_len := respLen,
    seg1_len := 0 }

/-- One joined-mode new-request iteration of `tcp_work` (lines 361-433), as
the ordered list of primitive actions of the path selected by the parser
outcome `pstatus` and the builder outcome `builder` (`none` models the
`response == NULL` check at line 409; `some (respBuf, respLen)` is the
builder's fresh response allocation and its size).  `req` is the popped
request sga, `clientQd` the client descriptor `wait_out.qr_qd`, `badBuf` the
fresh allocation `malloc`ed for the bad-request header. -/
def tcp_joined_iter (req : dmtr_sgarray_t) (clientQd : Nat)
    (pstatus : parser_status) (builder : Option (Nat × Nat)) (badBuf badLen : Nat) :
    List Action :=
  match pstatus with
  | .REQ_ERROR =>
      [.freeBuf req.sga_buf,
       .pushSubmit clientQd (tcp_bad_request_sga badBuf badLen),
       .waitLast]
  | .REQ_INCOMPLETE => []
  | .REQ_COMPLETE =>
      match builder with
      | none => []
      | some (respBuf, respLen) =>
          [.freeBuf req.sga_buf,
           .pushSubmit clientQd (tcp_complete_resp_sga respBuf respLen),
           .waitLast,
           .freeBuf respBuf,
           .popSubmit clientQd]

/-- The envelope attachment of `tcp_work` in split mode (lines 347-348):
`sga_numsegs = 2` and `sga_segs[1].sgaseg_len = wait_out.qr_qd`.  The field
is a `uint32_t`, hence the modulus. -/
def tcp_split_forward (sga : dmtr_sgarray_t) (clientQd : Nat) : dmtr_sgarray_t :=
  { sga with sga_numsegs := 2, seg1_len := clientQd % 2 ^ 32 }

/-- One split-mode new-request iteration of `tcp_work` (lines 330-360) after
the compute worker `worker_idx` has been chosen: push the enveloped request
to that worker's input queue `inQd`, wait, then submit a pop on its output
queue `outQd`.  The client descriptor's pop is deliberately not re-armed
(the re-arm at lines 357-360 is commented out in the source). -/
def tcp_split_iter (req : dmtr_sgarray_t) (clientQd inQd outQd : Nat) :
    List Action :=
  [.pushSubmit inQd (tcp_split_forward req clientQd),
   .waitLast,
   .popSubmit outQd]

/-- The client descriptor recovered from a compute-worker reply
(line 441: `int client_qfd = wait_out.qr_value.sga.sga_segs[1].sgaseg_len`). -/
def tcp_reply_client_qd (resp : dmtr_sgarray_t) : Nat :=
  resp.seg1_len

/-- One reply iteration of `tcp_work` (lines 434-453): push the reply sga to
the recovered client descriptor, wait, free the reply's segment-0 buffer,
then re-arm the client with a fresh pop. -/
def tcp_reply_iter (resp : dmtr_sgarray_t) : List Action :=
  [.pushSubmit (tcp_reply_client_qd resp) resp,
   .waitLast,
   .freeBuf resp.seg0_buf,
   .popSubmit (tcp_reply_client_qd resp)]

/-- The bad-request response sga built by `http_work` on `REQ_ERROR`
(lines 209-215): `sga_numsegs = 2`, fresh segment-0 allocation, and
segment 1's length copied from the incoming request. -/
def http_error_resp (req : dmtr_sgarray_t) (badBuf badLen : Nat) : dmtr_sgarray_t :=
  { sga_buf := 0, sga_numsegs := 2, seg0_buf := badBuf, seg0_len := badLen,
    seg1_len := req.seg1_len }

/-- The response sga built by `http_work` on `REQ_COMPLETE` (lines 248-252):
`sga_numsegs = 1`, segment 0 owns the builder's response allocation, and
segment 1's length copied from the incoming request. -/
def http_complete_resp (req : dmtr_sgarray_t) (respBuf respLen : Nat) : dmtr_sgarray_t :=
  { sga_buf := 0, sga_numsegs := 1, seg0_buf := respBuf, seg0_len := respLen,
    seg1_len := req.seg1_len }

/-- One iteration of the `http_work` loop after a successful pop from the
input queue (lines 196-255), as the ordered action list of the selected
path.  `outQd` is `me->out_qfd`. -/
def http_work_iter (req : dmtr_sgarray_t) (outQd : Nat)
    (pstatus : parser_status) (builder : Option (Nat × Nat)) (badBuf badLen : Nat) :
    List Action :=
  match pstatus with
  | .REQ_ERROR =>
      [.freeBuf req.sga_buf,
       .pushSubmit outQd (http_error_resp req badBuf badLen),
       .waitLast]
  | .REQ_INCOMPLETE => []
  | .REQ_COMPLETE =>
      match builder with
      | none => []
      | some (respBuf, respLen) =>
          [.freeBuf req.sga_buf,
           .pushSubmit outQd (http_complete_resp req respBuf respLen),
           .waitLast]

example : tcp_joined_iter ⟨100, 1, 101, 64, 0⟩ 5 .REQ_INCOMPLETE none 200 20 = [] := by decide
example : (tcp_joined_iter ⟨100, 1, 101, 64, 0⟩ 5 .REQ_ERROR none 200 20).length = 3 := by decide

/-! ## Supervisor: `work_setup` and `main` -/

/-- `enum tcp_filters` (line 39). -/
inductive tcp_filters where
  | RR
  | HTTP_REQ_TYPE
  | ONE_TO_ONE
deriving DecidableEq, Repr

/-- The filter `work_setup` installs in every `tcp_worker_args` (line 488):
hardcoded `ONE_TO_ONE`; the `RR` and `HTTP_REQ_TYPE` assignments are
commented out in the source. -/
def work_setup_filter : tcp_filters := .ONE_TO_ONE

/-- Externally visible events of `work_setup`, in program order. -/
inductive SetupEvent where
  | spawnTcp (i : Nat)
  | exitProc (code : Nat)
  | createQueue (worker : Nat) (which : Nat)
  | spawnHttp (i : Nat)
deriving DecidableEq, Repr

def isSpawnHttp : SetupEvent → Bool
  | .spawnHttp _ => true
  | _ => false

def isSpawnTcp : SetupEvent → Bool
  | .spawnTcp _ => true
  | _ => false

def isExitProc : SetupEvent → Bool
  | .exitProc _ => true
  | _ => false

/-- The TCP-worker creation loop of `work_setup` (lines 484-525), iterated
over the worker indices: each iteration first performs the `ONE_TO_ONE`
misconfiguration check (lines 493-497), calling `exit(1)` when
`n_tcp_workers < n_http_workers`, and otherwise spawns TCP worker `i`. -/
def work_setup_tcp_loop (n_tcp n_http : Nat) : List Nat → List SetupEvent
  | [] => []
  | i :: rest =>
      if work_setup_filter = .ONE_TO_ONE ∧ n_tcp < n_http then
        [.exitProc 1]
      else
        .spawnTcp i :: work_setup_tcp_loop n_tcp n_http rest

/-- The HTTP-worker creation loop of `work_setup` (lines 532-545): for each
worker, create its input queue and its output queue (`dmtr_queue`,
lines 536-537), then spawn the thread (line 540). -/
def work_setup_http_loop : List Nat → List SetupEvent
  | [] => []
  | i :: rest =>
      .createQueue i 0 :: .createQueue i 1 :: .spawnHttp i ::
        work_setup_http_loop rest

/-- `work_setup(n_tcp_workers, n_http_workers, split)` (lines 476-548) as its
event trace: the TCP loop; then, unless `exit(1)` fired or `split` is false
(the early return at lines 527-529), the HTTP-worker loop. -/
def work_setup (n_tcp n_http : Nat) (split : Bool) : List SetupEvent :=
  let t := work_setup_tcp_loop n_tcp n_http (List.range n_tcp)
  if t.any isExitProc then t
  else if split then t ++ work_setup_http_loop (List.range n_http)
  else t

/-- Whether `work_setup` terminates the process via `exit`. -/
def work_setup_exits (n_tcp n_http : Nat) (split : Bool) : Bool :=
  (work_setup n_tcp n_http split).any isExitProc

/-- The long names of the command-line options `main` registers
(lines 553-556): only the two worker counts.  From
`desc.add_options()("http-workers,w", ...)("tcp-workers,t", ...)`. -/
def main_cli_option_names : List String :=
  ["http-workers,w", "tcp-workers,t"]

/-- The `split` argument `main` passes to `work_setup` (line 577):
hardcoded `false`. -/
def main_split_arg : Bool := false

/-! ## Routing policy (split mode) -/

/-- The compute-worker selection of `tcp_work` in split mode
(lines 332-342), evaluated after `num_rcvd++`: `rcvd` is the incremented
counter, `reqType` the result of `filter_f` on the raw request, `whoami` the
connection worker's id, `nHttp` the size of `http_workers`.  The final
`else` branch (unknown filter) cannot arise for a three-valued enum and is
fused with the `RR` case it falls back to. -/
def select_http_worker (filter : tcp_filters) (rcvd reqType whoami nHttp : Nat) :
    Nat :=
  match filter with
  | .RR => rcvd % nHttp
  | .HTTP_REQ_TYPE => reqType % nHttp
  | .ONE_TO_ONE => whoami

example : work_setup 1 2 true = [.exitProc 1] := by decide
example : work_setup 0 1 false = [] := by decide
example : work_setup 2 1 true =
    [.spawnTcp 0, .spawnTcp 1, .createQueue 0 0, .createQueue 0 1, .spawnHttp 0] := by decide

/-! ## The connection worker's main loop as a transition system

One `dmtr_wait_any` iteration of `tcp_work` (lines 291-460) is one step.
The state carries the token set (as the list of outstanding operations,
each an opcode/descriptor pair), `http_q_pending`, and `num_rcvd`.  The
decomposition `l₁ ++ op :: l₂` of the token list is the completed token at
index `idx`; removal and re-appending follow the source exactly.  Error
completions are modelled on pop operations, matching the specification's
error model (transport errors arise on client descriptors). -/

/-- Opcode of an outstanding operation (`DMTR_OPC_ACCEPT` / `DMTR_OPC_POP`). -/
inductive OpKind where
  | acc
  | pop
deriving DecidableEq, Repr

/-- An outstanding operation: its opcode and the descriptor it targets. -/
structure Op where
  kind : OpKind
  qd : Nat
deriving DecidableEq, Repr

/-- Connection worker state between `wait_any` calls: outstanding
operations (the `tokens` vector), `http_q_pending`, and `num_rcvd`. -/
structure WState where
  ops : List Op
  pending : List Nat
  num_rcvd : Nat
deriving DecidableEq, Repr

/-- Per-thread configuration from `tcp_worker_args` plus the global
`http_workers` table: listening descriptor, split flag, filter, worker id,
and the compute workers' output-queue descriptors. -/
structure WConfig where
  lqd : Nat
  split : Bool
  filter : tcp_filters
  whoami : Nat
  httpOut : List Nat
deriving DecidableEq, Repr

/-- State after `tcp_work`'s setup (lines 286-290): one accept outstanding
on the listening descriptor, empty `http_q_pending`, `num_rcvd = 0`. -/
def initState (cfg : WConfig) : WState :=
  ⟨[⟨.acc, cfg.lqd⟩], [], 0⟩

/-- Observable label of one `wait_any` iteration. -/
inductive WEvent where
  | evAccept (newQd : Nat)
  | evJoinedReq (qd : Nat)
  | evSplitReq (qd : Nat) (widx : Nat)
  | evReply (oq : Nat) (clientQd : Nat)
  | evError (qd : Nat)
deriving DecidableEq, Repr

/-- New-request iterations (the `it == http_q_pending.end()` branch, which
executes `num_rcvd++`). -/
def isNewReq : WEvent → Bool
  | .evJoinedReq _ => true
  | .evSplitReq _ _ => true
  | _ => false

/-- One iteration of `tcp_work`'s main loop.

* `accept` (lines 296-306): completion on `lqd`; erase its token, submit a
  pop on the accepted descriptor and a fresh accept on `lqd`.
* `joinedReq` (lines 308-433, `split == false`): pop completion on a client
  descriptor not in `http_q_pending`; `num_rcvd++`; the client pop is
  re-armed only on the `REQ_COMPLETE` path with a non-NULL builder response
  (`builderOk`); the `REQ_ERROR`, `REQ_INCOMPLETE` and NULL-response paths
  `continue` without re-arming.
* `splitReq` (lines 330-360, `split == true`): choose the compute worker by
  the filter on the incremented counter, push the enveloped request, submit
  a pop on that worker's output queue, record it in `http_q_pending`; the
  client pop is not re-armed (lines 357-360 are commented out).
* `reply` (lines 434-453): pop completion on a descriptor in
  `http_q_pending`; remove it from `http_q_pending`, push to the recovered
  client and re-arm that client with a fresh pop.
* `popError` (lines 455-459): `wait_any` reports `ECONNRESET`/`ECONNABORTED`
  for an outstanding pop; close the descriptor and erase the token. -/
inductive WStep (cfg : WConfig) : WEvent → WState → WState → Prop
  | accept (l₁ l₂ : List Op) (pend : List Nat) (n newQd : Nat) :
      WStep cfg (.evAccept newQd)
        ⟨l₁ ++ ⟨.acc, cfg.lqd⟩ :: l₂, pend, n⟩
        ⟨(l₁ ++ l₂) ++ [⟨.pop, newQd⟩, ⟨.acc, cfg.lqd⟩], pend, n⟩
  | joinedReq (l₁ l₂ : List Op) (pend : List Nat) (n qd : Nat)
      (pstatus : parser_status) (builderOk : Bool) :
      qd ≠ cfg.lqd → qd ∉ pend → cfg.split = false →
      WStep cfg (.evJoinedReq qd)
        ⟨l₁ ++ ⟨.pop, qd⟩ :: l₂, pend, n⟩
        ⟨(l₁ ++ l₂) ++
            (if pstatus = .REQ_COMPLETE ∧ builderOk then [⟨.pop, qd⟩] else []),
          pend, n + 1⟩
  | splitReq (l₁ l₂ : List Op) (pend : List Nat) (n qd reqType k : Nat)
      (hk : k < cfg.httpOut.length) :
      qd ≠ cfg.lqd → qd ∉ pend → cfg.split = true →
      k = select_http_worker cfg.filter (n + 1) reqType cfg.whoami
            cfg.httpOut.length →
      WStep cfg (.evSplitReq qd k)
        ⟨l₁ ++ ⟨.pop, qd⟩ :: l₂, pend, n⟩
        ⟨(l₁ ++ l₂) ++ [⟨.pop, cfg.httpOut.get ⟨k, hk⟩⟩],
          cfg.httpOut.get ⟨k, hk⟩ :: pend, n + 1⟩
  | reply (l₁ l₂ : List Op) (pend : List Nat) (n oq clientQd : Nat) :
      oq ≠ cfg.lqd → oq ∈ pend →
      WStep cfg (.evReply oq clientQd)
        ⟨l₁ ++ ⟨.pop, oq⟩ :: l₂, pend, n⟩
        ⟨(l₁ ++ l₂) ++ [⟨.pop, clientQd⟩], pend.erase oq, n⟩
  | popError (l₁ l₂ : List Op) (pend : List Nat) (n qd : Nat) :
      WStep cfg (.evError qd)
        ⟨l₁ ++ ⟨.pop, qd⟩ :: l₂, pend, n⟩
        ⟨l₁ ++ l₂, pend, n⟩

/-- A finite run of the main loop, labelled by its events. -/
inductive WTrace (cfg : WConfig) : WState → List WEvent → WState → Prop
  | nil (s : WState) : WTrace cfg s [] s
  | cons {s s' s'' : WState} {e : WEvent} {es : List WEvent} :
      WStep cfg e s s' → WTrace cfg s' es s'' → WTrace cfg s (e :: es) s''

/-- Whether an outstanding operation is an accept on descriptor `lqd`. -/
def isAcceptOn (lqd : Nat) : Op → Bool
  | ⟨.acc, q⟩ => q == lqd
  | ⟨.pop, _⟩ => false

/-- Number of accepts outstanding on `lqd`. -/
def acceptCount (lqd : Nat) (ops : List Op) : Nat :=
  ops.countP (isAcceptOn lqd)

/-- An event occurs before another one in an event list. -/
def precedes (a b : SetupEvent) (es : List SetupEvent) : Prop :=
  ∃ l₁ l₂ l₃, es = l₁ ++ a :: l₂ ++ b :: l₃

/-! ## Helper lemmas -/

theorem acceptCount_wstep {cfg : WConfig} {e : WEvent} {s s' : WState}
    (h : WStep cfg e s s') :
    acceptCount cfg.lqd s'.ops = acceptCount cfg.lqd s.ops := by
  cases h with
  | accept l₁ l₂ pend n newQd =>
      simp [acceptCount, List.countP_append, List.countP_cons, isAcceptOn]
  | joinedReq l₁ l₂ pend n qd pstatus builderOk h1 h2 h3 =>
      split <;>
        simp [acceptCount, List.countP_append, List.countP_cons, isAcceptOn]
  | splitReq l₁ l₂ pend n qd reqType k hk h1 h2 h3 hsel =>
      simp [acceptCount, List.countP_append, List.countP_cons, isAcceptOn]
  | reply l₁ l₂ pend n oq clientQd h1 h2 =>
      simp [acceptCount, List.countP_append, List.countP_cons, isAcceptOn]
  | popError l₁ l₂ pend n qd =>
      simp [acceptCount, List.countP_append, List.countP_cons, isAcceptOn]

theorem acceptCount_wtrace {cfg : WConfig} {s : WState} {es : List WEvent}
    {s' : WState} (h : WTrace cfg s es s') :
    acceptCount cfg.lqd s'.ops = acceptCount cfg.lqd s.ops := by
  induction h with
  | nil => rfl
  | cons hstep _ ih => rw [ih, acceptCount_wstep hstep]

theorem num_rcvd_wstep {cfg : WConfig} {e : WEvent} {s s' : WState}
    (h : WStep cfg e s s') :
    s'.num_rcvd = s.num_rcvd + (if isNewReq e then 1 else 0) := by
  cases h <;> simp [isNewReq]

theorem num_rcvd_wtrace {cfg : WConfig} {s : WState} {es : List WEvent}
    {s' : WState} (h : WTrace cfg s es s') :
    s'.num_rcvd = s.num_rcvd + es.countP isNewReq := by
  induction h with
  | nil => simp
  | cons hstep _ ih =>
      rw [ih, num_rcvd_wstep hstep, List.countP_cons]
      cases hni : isNewReq _ <;> simp [hni]
      all_goals omega

/-! ## Claims C6 and C8 -/

/-- Claim C6: at every suspension point of a connection worker's main loop,
exactly one accept operation is outstanding on its listening descriptor:
one accept is submitted at setup, and each accept completion removes that
token and submits exactly one fresh accept on the listening descriptor.
(The granularity of one step per `wait_any` iteration is adequate: the only
branch that touches accept tokens, lines 296-306, contains no inner
`dmtr_wait`, so the accept count is constant across the inner suspension
points of the other branches.) -/
theorem C6_one_accept_outstanding (cfg : WConfig) (es : List WEvent)
    (s : WState) (h : WTrace cfg (initState cfg) es s) :
    acceptCount cfg.lqd s.ops = 1 := by
  rw [acceptCount_wtrace h]
  simp [initState, acceptCount, List.countP_cons, isAcceptOn]

/-- Witness for C6: after the one-step run that accepts a connection
(descriptor 5) on listening descriptor 0, exactly one accept is
outstanding. -/
theorem C6_witness :
    acceptCount 0 (WState.mk [⟨.pop, 5⟩, ⟨.acc, 0⟩] [] 0).ops = 1 :=
  C6_one_accept_outstanding ⟨0, false, .ONE_TO_ONE, 0, []⟩ [.evAccept 5]
    ⟨[⟨.pop, 5⟩, ⟨.acc, 0⟩], [], 0⟩
    (WTrace.cons (WStep.accept [] [] [] 0 5) (WTrace.nil _))

/-- Claim C8: in split mode under the `RR` (round-robin) policy with
`cfg.httpOut.length` compute workers, the `k`-th new request received by a
connection worker (1-indexed, counted across all of its connections by
`num_rcvd`) is forwarded to compute worker index `k % cfg.httpOut.length`. -/
theorem C8_round_robin (cfg : WConfig) (es : List WEvent) (s s' : WState)
    (k qd widx : Nat) (hf : cfg.filter = .RR)
    (htr : WTrace cfg (initState cfg) es s)
    (hk1 : 1 ≤ k) (hcount : es.countP isNewReq = k - 1)
    (hstep : WStep cfg (.evSplitReq qd widx) s s') :
    widx = k % cfg.httpOut.length := by
  have hn : s.num_rcvd = k - 1 := by
    have h := num_rcvd_wtrace htr
    simp [initState] at h
    omega
  cases hstep with
  | splitReq l₁ l₂ pend n qd reqType k' hk' h1 h2 h3 hsel =>
      simp at hn
      rw [hsel, hf]
      simp only [select_http_worker]
      congr 1
      omega

/-- Witness for C8: a concrete two-connection run (accept 5, forward its
request, accept 6) whose second new request is routed, among four compute
workers, to worker `2 = 2 % 4`. -/
theorem C8_witness : (2 : Nat) = 2 % 4 :=
  C8_round_robin ⟨0, true, .RR, 0, [10, 11, 12, 13]⟩
    [.evAccept 5, .evSplitReq 5 1, .evAccept 6]
    ⟨[⟨.pop, 11⟩, ⟨.pop, 6⟩, ⟨.acc, 0⟩], [11], 1⟩ _ 2 6 2 rfl
    (WTrace.cons (WStep.accept [] [] [] 0 5)
      (WTrace.cons
        (WStep.splitReq [] [⟨.acc, 0⟩] [] 0 5 0 1 (by decide) (by decide)
          (by decide) rfl (by decide))
        (WTrace.cons (WStep.accept [] [⟨.pop, 11⟩] [11] 1 6) (WTrace.nil _))))
    (by decide) (by decide)
    (WStep.splitReq [⟨.pop, 11⟩] [⟨.acc, 0⟩] [11] 1 6 0 2 (by decide)
      (by decide) (by decide) rfl (by decide))

/-! ## Claims C3, C4, C5, C7, C9: handler-path properties -/

/-- Claim C3 counterexample: on a parse error in joined mode (request
buffer 100, client descriptor 5, bad-request allocation 200) the handler
path submits no new pop on the client and never frees the bad-request
response allocation, contrary to the claim that it frees the response and
re-arms the connection. -/
theorem C3_counterexample :
    (tcp_joined_iter ⟨100, 1, 101, 64, 0⟩ 5 .REQ_ERROR none 200 20).countP
        (isPopOn 5) = 0 ∧
    (tcp_joined_iter ⟨100, 1, 101, 64, 0⟩ 5 .REQ_ERROR none 200 20).countP
        (isFreeOf 200) = 0 := by
  decide

/-- Claim C3 (amended): in joined mode, for every popped request whose parse
yields error, the connection worker frees the request buffer exactly once,
then pushes the fixed bad-request response to the client and waits for the
push to complete; it does not free the response buffer and does not submit
a new pop on the client descriptor (the connection is left un-armed). -/
theorem C3_joined_error_path (req : dmtr_sgarray_t) (q badBuf badLen : Nat)
    (b : Option (Nat × Nat)) (hb : badBuf ≠ req.sga_buf) :
    (tcp_joined_iter req q .REQ_ERROR b badBuf badLen).countP
        (isFreeOf req.sga_buf) = 1 ∧
    (tcp_joined_iter req q .REQ_ERROR b badBuf badLen).findIdx
        (isFreeOf req.sga_buf) <
      (tcp_joined_iter req q .REQ_ERROR b badBuf badLen).findIdx (isPushOn q) ∧
    (tcp_joined_iter req q .REQ_ERROR b badBuf badLen).findIdx (isPushOn q) <
      (tcp_joined_iter req q .REQ_ERROR b badBuf badLen).findIdx isWaitLast ∧
    (tcp_joined_iter req q .REQ_ERROR b badBuf badLen).countP (isPopOn q) = 0 ∧
    (tcp_joined_iter req q .REQ_ERROR b badBuf badLen).countP
        (isFreeOf badBuf) = 0 := by
  have hb' : (req.sga_buf == badBuf) = false := beq_eq_false_iff_ne.mpr (Ne.symm hb)
  refine ⟨?_, ?_, ?_, ?_, ?_⟩ <;>
    simp [tcp_joined_iter, tcp_bad_request_sga, List.countP_cons,
      List.findIdx_cons, isFreeOf, isPushOn, isPopOn, isWaitLast, hb']

/-- Witness for C3 at request buffer 100, client 5, bad-request buffer 200. -/
theorem C3_witness :
    (tcp_joined_iter ⟨100, 1, 101, 64, 0⟩ 5 .REQ_ERROR none 200 20).countP
        (isFreeOf 100) = 1 ∧
    (tcp_joined_iter ⟨100, 1, 101, 64, 0⟩ 5 .REQ_ERROR none 200 20).findIdx
        (isFreeOf 100) <
      (tcp_joined_iter ⟨100, 1, 101, 64, 0⟩ 5 .REQ_ERROR none 200 20).findIdx
        (isPushOn 5) ∧
    (tcp_joined_iter ⟨100, 1, 101, 64, 0⟩ 5 .REQ_ERROR none 200 20).findIdx
        (isPushOn 5) <
      (tcp_joined_iter ⟨100, 1, 101, 64, 0⟩ 5 .REQ_ERROR none 200 20).findIdx
        isWaitLast ∧
    (tcp_joined_iter ⟨100, 1, 101, 64, 0⟩ 5 .REQ_ERROR none 200 20).countP
        (isPopOn 5) = 0 ∧
    (tcp_joined_iter ⟨100, 1, 101, 64, 0⟩ 5 .REQ_ERROR none 200 20).countP
        (isFreeOf 200) = 0 :=
  C3_joined_error_path ⟨100, 1, 101, 64, 0⟩ 5 200 20 none (by decide)

/-- Claim C4 counterexample: the response sga the compute worker builds for
a complete request has `sga_numsegs = 1`, not 2 as the claim states
(request with envelope 7, response allocation 300 of 128 bytes). -/
theorem C4_counterexample :
    ¬ (http_complete_resp ⟨100, 1, 101, 64, 7⟩ 300 128).sga_numsegs = 2 := by
  decide

/-- Claim C4 (amended): for every request the compute worker parses as
complete, the response it pushes to its output queue has `sga_numsegs = 1`,
segment 0 owning the response bytes, and segment 1's length equal to
segment 1's length of the incoming request (the originating client
descriptor). -/
theorem C4_complete_resp (req : dmtr_sgarray_t)
    (outQd respBuf respLen badBuf badLen : Nat) :
    (http_complete_resp req respBuf respLen).sga_numsegs = 1 ∧
    (http_complete_resp req respBuf respLen).seg0_buf = respBuf ∧
    (http_complete_resp req respBuf respLen).seg0_len = respLen ∧
    (http_complete_resp req respBuf respLen).seg1_len = req.seg1_len ∧
    Action.pushSubmit outQd (http_complete_resp req respBuf respLen) ∈
      http_work_iter req outQd .REQ_COMPLETE (some (respBuf, respLen))
        badBuf badLen := by
  refine ⟨rfl, rfl, rfl, rfl, ?_⟩
  simp [http_work_iter]

/-- Claim C5: in split mode the connection worker sets `sga_numsegs = 2` and
segment 1's length to the client descriptor before forwarding; the compute
worker carries that length unchanged into both its complete and its error
responses; and the reply path recovers exactly the originating descriptor
and pushes the response to it (head of the reply-path action list).
`q < 2^32` because `sgaseg_len` is a `uint32_t`. -/
theorem C5_envelope_round_trip (sga : dmtr_sgarray_t)
    (q respBuf respLen badBuf badLen : Nat) (hq : q < 2 ^ 32) :
    (tcp_split_forward sga q).sga_numsegs = 2 ∧
    (tcp_split_forward sga q).seg1_len = q ∧
    (http_complete_resp (tcp_split_forward sga q) respBuf respLen).seg1_len = q ∧
    (http_error_resp (tcp_split_forward sga q) badBuf badLen).seg1_len = q ∧
    tcp_reply_client_qd
        (http_complete_resp (tcp_split_forward sga q) respBuf respLen) = q ∧
    (tcp_reply_iter
        (http_complete_resp (tcp_split_forward sga q) respBuf respLen)).head? =
      some (.pushSubmit q
        (http_complete_resp (tcp_split_forward sga q) respBuf respLen)) := by
  have h : q % 2 ^ 32 = q := Nat.mod_eq_of_lt hq
  refine ⟨?_, ?_, ?_, ?_, ?_, ?_⟩ <;>
    simp [tcp_split_forward, http_complete_resp, http_error_resp,
      tcp_reply_client_qd, tcp_reply_iter, h]
  all_goals simpa using hq

/-- Witness for C5: client descriptor 5 is recovered intact after the
forward/compute round trip. -/
theorem C5_witness :
    tcp_reply_client_qd
      (http_complete_resp (tcp_split_forward ⟨100, 1, 101, 64, 0⟩ 5) 300 128) = 5 :=
  (C5_envelope_round_trip ⟨100, 1, 101, 64, 0⟩ 5 300 128 200 20
    (by decide)).2.2.2.2.1

/-- Claim C7: per accepted connection, requests are strictly serialised.
On the joined complete path the single re-arming pop on the client comes
strictly after the response push and the wait on its completion; on the
split forward path no pop on the client is submitted at all; on the reply
path the single pop on the recovered client comes strictly after the
response push and its wait. -/
theorem C7_request_response_serialised (req resp : dmtr_sgarray_t)
    (q inQd outQd respBuf respLen badBuf badLen : Nat) (houtq : outQd ≠ q) :
    (tcp_joined_iter req q .REQ_COMPLETE (some (respBuf, respLen)) badBuf
        badLen).countP (isPopOn q) = 1 ∧
    (tcp_joined_iter req q .REQ_COMPLETE (some (respBuf, respLen)) badBuf
        badLen).findIdx (isPushOn q) <
      (tcp_joined_iter req q .REQ_COMPLETE (some (respBuf, respLen)) badBuf
        badLen).findIdx isWaitLast ∧
    (tcp_joined_iter req q .REQ_COMPLETE (some (respBuf, respLen)) badBuf
        badLen).findIdx isWaitLast <
      (tcp_joined_iter req q .REQ_COMPLETE (some (respBuf, respLen)) badBuf
        badLen).findIdx (isPopOn q) ∧
    (tcp_split_iter req q inQd outQd).countP (isPopOn q) = 0 ∧
    (tcp_reply_iter resp).countP (isPopOn (tcp_reply_client_qd resp)) = 1 ∧
    (tcp_reply_iter resp).findIdx (isPushOn (tcp_reply_client_qd resp)) <
      (tcp_reply_iter resp).findIdx isWaitLast ∧
    (tcp_reply_iter resp).findIdx isWaitLast <
      (tcp_reply_iter resp).findIdx (isPopOn (tcp_reply_client_qd resp)) := by
  have h1 : (outQd == q) = false := beq_eq_false_iff_ne.mpr houtq
  refine ⟨?_, ?_, ?_, ?_, ?_, ?_, ?_⟩ <;>
    simp [tcp_joined_iter, tcp_split_iter, tcp_reply_iter,
      tcp_complete_resp_sga, tcp_split_forward, tcp_reply_client_qd,
      List.countP_cons, List.findIdx_cons, isFreeOf, isPushOn, isPopOn,
      isWaitLast, h1]

/-- Witness for C7: with client 5 and compute queues 8 (input) and 7
(output), the split forward path submits no pop on the client. -/
theorem C7_witness :
    (tcp_split_iter ⟨100, 1, 101, 64, 0⟩ 5 8 7).countP (isPopOn 5) = 0 :=
  (C7_request_response_serialised ⟨100, 1, 101, 64, 0⟩ ⟨0, 1, 300, 128, 5⟩
    5 8 7 300 128 200 20 (by decide)).2.2.2.1

/-- Claim C9 counterexample: on the parse-incomplete path (request buffer
110) the request buffer is freed zero times, not exactly once as the claim
states. -/
theorem C9_counterexample :
    ¬ (tcp_joined_iter ⟨110, 1, 111, 64, 0⟩ 6 .REQ_INCOMPLETE none 201
        21).countP (isFreeOf 110) = 1 := by
  decide

/-- Claim C9 (amended): every request buffer received is freed exactly once
by the worker that consumed it on the parse-error path (before the
bad-request response is built) and on the complete path with a non-NULL
builder response (before the response is pushed); on the parse-incomplete
path and on the complete path whose builder returns NULL the request buffer
is not freed at all.  This holds for both the joined-mode connection worker
and the compute worker. -/
theorem C9_request_buffer_frees (req : dmtr_sgarray_t)
    (q outQd respBuf respLen badBuf badLen : Nat)
    (hr : respBuf ≠ req.sga_buf) :
    (tcp_joined_iter req q .REQ_ERROR none badBuf badLen).countP
        (isFreeOf req.sga_buf) = 1 ∧
    (tcp_joined_iter req q .REQ_COMPLETE (some (respBuf, respLen)) badBuf
        badLen).countP (isFreeOf req.sga_buf) = 1 ∧
    (tcp_joined_iter req q .REQ_INCOMPLETE none badBuf badLen).countP
        (isFreeOf req.sga_buf) = 0 ∧
    (tcp_joined_iter req q .REQ_COMPLETE none badBuf badLen).countP
        (isFreeOf req.sga_buf) = 0 ∧
    (http_work_iter req outQd .REQ_ERROR none badBuf badLen).countP
        (isFreeOf req.sga_buf) = 1 ∧
    (http_work_iter req outQd .REQ_COMPLETE (some (respBuf, respLen)) badBuf
        badLen).countP (isFreeOf req.sga_buf) = 1 ∧
    (http_work_iter req outQd .REQ_INCOMPLETE none badBuf badLen).countP
        (isFreeOf req.sga_buf) = 0 ∧
    (http_work_iter req outQd .REQ_COMPLETE none badBuf badLen).countP
        (isFreeOf req.sga_buf) = 0 := by
  have hr' : (respBuf == req.sga_buf) = false := beq_eq_false_iff_ne.mpr hr
  refine ⟨?_, ?_, ?_, ?_, ?_, ?_, ?_, ?_⟩ <;>
    simp [tcp_joined_iter, http_work_iter, List.countP_cons, isFreeOf, hr']

/-- Witness for C9 at request buffer 110: freed once on the error path,
zero times on the incomplete path. -/
theorem C9_witness :
    (tcp_joined_iter ⟨110, 1, 111, 64, 0⟩ 6 .REQ_ERROR none 201 21).countP
        (isFreeOf 110) = 1 ∧
    (tcp_joined_iter ⟨110, 1, 111, 64, 0⟩ 6 .REQ_INCOMPLETE none 201
        21).countP (isFreeOf 110) = 0 :=
  let h := C9_request_buffer_frees ⟨110, 1, 111, 64, 0⟩ 6 9 301 128 201 21
    (by decide)
  ⟨h.1, h.2.2.1⟩

/-! ## Claims C1, C2, C10: supervisor startup -/

theorem http_loop_no_exit (L : List Nat) :
    (work_setup_http_loop L).any isExitProc = false := by
  induction L with
  | nil => rfl
  | cons i rest ih => simp [work_setup_http_loop, isExitProc, ih]

theorem tcp_loop_exit (n_tcp n_http : Nat) (L : List Nat) :
    (work_setup_tcp_loop n_tcp n_http L).any isExitProc =
      (!L.isEmpty && decide (n_tcp < n_http)) := by
  induction L with
  | nil => rfl
  | cons i rest ih =>
      by_cases h : n_tcp < n_http
      · simp [work_setup_tcp_loop, work_setup_filter, h, isExitProc]
      · simp [work_setup_tcp_loop, work_setup_filter, h, isExitProc, ih]

theorem work_setup_exits_eq (n_tcp n_http : Nat) (split : Bool) :
    work_setup_exits n_tcp n_http split =
      (!(List.range n_tcp).isEmpty && decide (n_tcp < n_http)) := by
  rw [← tcp_loop_exit n_tcp n_http (List.range n_tcp)]
  simp only [work_setup_exits, work_setup]
  cases hta : (work_setup_tcp_loop n_tcp n_http (List.range n_tcp)).any isExitProc
  · cases split <;> simp [hta, List.any_append, http_loop_no_exit]
  · simp [hta]

theorem http_loop_spawn_count (L : List Nat) :
    (work_setup_http_loop L).countP isSpawnHttp = L.length := by
  induction L with
  | nil => rfl
  | cons i rest ih =>
      simp [work_setup_http_loop, List.countP_cons, isSpawnHttp, ih]

theorem tcp_loop_spawn_count (n_tcp n_http : Nat) (L : List Nat) :
    (work_setup_tcp_loop n_tcp n_http L).countP isSpawnHttp = 0 := by
  induction L with
  | nil => rfl
  | cons i rest ih =>
      by_cases h : n_tcp < n_http <;>
        simp [work_setup_tcp_loop, work_setup_filter, h, List.countP_cons,
          isSpawnHttp, ih]

theorem precedes_append_left (t es : List SetupEvent) (a b : SetupEvent)
    (h : precedes a b es) : precedes a b (t ++ es) := by
  obtain ⟨l₁, l₂, l₃, rfl⟩ := h
  exact ⟨t ++ l₁, l₂, l₃, by simp⟩

theorem precedes_cons (c : SetupEvent) {a b : SetupEvent}
    {es : List SetupEvent} (h : precedes a b es) : precedes a b (c :: es) :=
  precedes_append_left [c] es a b h

theorem http_loop_queue_before_spawn (L : List Nat) (i : Nat) (hi : i ∈ L) :
    precedes (.createQueue i 0) (.spawnHttp i) (work_setup_http_loop L) ∧
    precedes (.createQueue i 1) (.spawnHttp i) (work_setup_http_loop L) := by
  induction L with
  | nil => cases hi
  | cons j rest ih =>
      rcases List.mem_cons.mp hi with h | h
      · subst h
        constructor
        · exact ⟨[], [.createQueue i 1], work_setup_http_loop rest, rfl⟩
        · exact ⟨[.createQueue i 0], [], work_setup_http_loop rest, rfl⟩
      · have hp := ih h
        exact ⟨precedes_cons _ (precedes_cons _ (precedes_cons _ hp.1)),
               precedes_cons _ (precedes_cons _ (precedes_cons _ hp.2))⟩

/-- Claim C1 counterexample: the option table `main` registers holds only
the two worker-count flags — there is no `split` flag — and `main` passes
`split = false` to `work_setup` unconditionally, so no run can be
"configured with split"; the claim's premise about the supervisor's
configuration parsing is false of the code. -/
theorem C1_counterexample :
    main_split_arg = false ∧
    main_cli_option_names = ["http-workers,w", "tcp-workers,t"] ∧
    "split" ∉ main_cli_option_names := by
  refine ⟨rfl, rfl, ?_⟩
  decide

/-- Claim C1 (amended): the supervisor parses only the two worker counts;
`split` is a parameter of `work_setup`, which `main` calls with `false`.
When `work_setup` is invoked with `split = true` and the configuration is
not rejected, it spawns exactly `n_http` compute workers, and each worker's
pair of queues is created before its thread is spawned. -/
theorem C1_split_spawn (n_tcp n_http : Nat)
    (hno : work_setup_exits n_tcp n_http true = false) :
    (work_setup n_tcp n_http true).countP isSpawnHttp = n_http ∧
    ∀ i, i < n_http →
      precedes (.createQueue i 0) (.spawnHttp i) (work_setup n_tcp n_http true) ∧
      precedes (.createQueue i 1) (.spawnHttp i) (work_setup n_tcp n_http true) := by
  have ht : (work_setup_tcp_loop n_tcp n_http (List.range n_tcp)).any
      isExitProc = false := by
    rw [tcp_loop_exit]
    rw [work_setup_exits_eq] at hno
    exact hno
  have hw : work_setup n_tcp n_http true =
      work_setup_tcp_loop n_tcp n_http (List.range n_tcp) ++
        work_setup_http_loop (List.range n_http) := by
    simp [work_setup, ht]
  rw [hw]
  constructor
  · rw [List.countP_append, tcp_loop_spawn_count, http_loop_spawn_count]
    simp
  · intro i hi
    have hm : i ∈ List.range n_http := List.mem_range.mpr hi
    have h2 := http_loop_queue_before_spawn (List.range n_http) i hm
    exact ⟨precedes_append_left _ _ _ _ h2.1, precedes_append_left _ _ _ _ h2.2⟩

/-- Witness for C1: with one connection worker and one compute worker in
split mode, exactly one compute worker is spawned and its input queue is
created before its thread. -/
theorem C1_witness :
    (work_setup 1 1 true).countP isSpawnHttp = 1 ∧
    precedes (.createQueue 0 0) (.spawnHttp 0) (work_setup 1 1 true) :=
  let h := C1_split_spawn 1 1 (by decide)
  ⟨h.1, (h.2 0 (by decide)).1⟩

/-- Claim C2 counterexample: with 1 connection worker and 2 compute workers
— a configuration the claim says is accepted, since
`num_compute_workers ≥ num_connection_workers` — `work_setup` calls
`exit(1)`; the claim's inequality is reversed with respect to the code. -/
theorem C2_counterexample :
    ¬ (work_setup_exits 1 2 true = true ↔ 2 < 1) := by
  decide

/-- Claim C2 (amended): under the hardcoded `ONE_TO_ONE` policy the
configuration is rejected with `exit(1)` exactly when there is at least one
connection worker and `n_tcp_workers < n_http_workers` (i.e. fewer
connection workers than compute workers); every other configuration is
accepted. -/
theorem C2_rejection_iff (n_tcp n_http : Nat) (split : Bool) :
    work_setup_exits n_tcp n_http split = true ↔
      1 ≤ n_tcp ∧ n_tcp < n_http := by
  rw [work_setup_exits_eq]
  simp [List.isEmpty_iff, List.range_eq_nil]
  omega

/-- Claim C10 counterexample: with 0 connection workers and 1 compute
worker (`n_tcp_workers < n_http_workers`), the misconfiguration check never
runs — it sits inside the TCP-worker loop, whose body does not execute —
and the process does not exit. -/
theorem C10_counterexample :
    work_setup_exits 0 1 false = false ∧ 0 < 1 := by
  decide

/-- Claim C10 (amended): the `ONE_TO_ONE` misconfiguration check is applied
regardless of the `split` flag: whenever there is at least one connection
worker and `n_tcp_workers < n_http_workers`, `work_setup` exits with
status 1 before spawning any worker (its event trace is exactly the exit),
in joined mode as well as in split mode. -/
theorem C10_check_regardless_of_split (n_tcp n_http : Nat) (split : Bool)
    (h1 : 1 ≤ n_tcp) (h2 : n_tcp < n_http) :
    work_setup n_tcp n_http split = [.exitProc 1] := by
  obtain ⟨m, rfl⟩ : ∃ m, n_tcp = m + 1 := ⟨n_tcp - 1, by omega⟩
  have hloop : work_setup_tcp_loop (m + 1) n_http (List.range (m + 1)) =
      [.exitProc 1] := by
    rw [List.range_succ_eq_map]
    simp [work_setup_tcp_loop, work_setup_filter, h2]
  simp [work_setup, hloop, isExitProc]

/-- Witness for C10: one connection worker, two compute workers, joined
mode: the setup trace is exactly `exit(1)`. -/
theorem C10_witness : work_setup 1 2 false = [SetupEvent.exitProc 1] :=
  C10_check_regardless_of_split 1 2 false (by decide) (by decide)

end DmtrHttpServer
